import Mathlib

/-
Verification of the dungeon-escape adventure game (src/Escape_dungeon.py).

The game state is a player (name, inventory, location, capacity) together
with a world: an association list from room names to rooms.  Each room has a
description, an exit table (direction to target room), an item list and an
optional obstacle.  The command handlers of the source are embedded as pure
functions on the game state; console output is dropped, numeric selections
and y/n confirmations become explicit arguments, and each handler also
returns an outcome tag recording which branch was taken (errors raised /
messages printed in the source).
-/

namespace DungeonEscape

/-- An obstacle, mirroring the `Obstacle` dataclass / obstacle dicts of the
source: a type tag, the item that resolves it, a display message, and the
exit direction it blocks (`none` blocks regardless of direction). -/
structure Obstacle where
  type : String
  required_item : String
  message : String
  direction : Option String
deriving DecidableEq, Repr

/-- A room, mirroring the `Room` TypedDict of the source. -/
structure Room where
  description : String
  exits : List (String × String)
  items : List String
  obstacle : Option Obstacle
deriving DecidableEq, Repr

/-- The world is the dict from room names to rooms, as an association list. -/
abbrev World := List (String × Room)

/-- The `Player` class of the source: name, inventory, current location and
maximum inventory capacity. -/
structure Player where
  name : String
  inventory : List String
  location : String
  max_inventory : Nat
deriving DecidableEq, Repr

/-- The whole mutable state of a game session. -/
structure GameState where
  player : Player
  world : World
deriving DecidableEq, Repr

/-- The room used when a lookup misses (a Python `KeyError`; never reached
for the states the source constructs). -/
def emptyRoom : Room := { description := "", exits := [], items := [], obstacle := none }

/-- `world[name]` of the source. -/
def getRoom (w : World) (name : String) : Room := (w.lookup name).getD emptyRoom

/-- In-place update of one room of the world dict. -/
def updateRoom : World → String → (Room → Room) → World
  | [], _, _ => []
  | (k, r) :: t, n, f => (if k = n then (k, f r) else (k, r)) :: updateRoom t n f

/-- Python list indexing `xs[i]` with its negative-index convention:
`xs[i]` is `xs[len xs + i]` for `-len xs ≤ i < 0`, and an `IndexError`
(`none`) outside `-len xs ≤ i < len xs`. -/
def pyGet (xs : List String) (i : Int) : Option String :=
  if 0 ≤ i then xs.get? i.toNat
  else if 0 ≤ (xs.length : Int) + i then xs.get? ((xs.length : Int) + i).toNat
  else none

/-- `Player.add_item` of the source: appends when below capacity, otherwise
raises `InventoryFullError` (modelled as `none`). -/
def add_item (p : Player) (item : String) : Option Player :=
  if p.inventory.length < p.max_inventory then
    some { p with inventory := p.inventory ++ [item] }
  else none

/-- `Player.has_item` of the source. -/
def has_item (p : Player) (item : String) : Prop := item ∈ p.inventory

instance (p : Player) (item : String) : Decidable (has_item p item) :=
  inferInstanceAs (Decidable (item ∈ p.inventory))

/-- `Player.remove_item` of the source: removes the first occurrence when
present, does nothing when absent. -/
def remove_item (p : Player) (item : String) : Player :=
  { p with inventory := p.inventory.erase item }

/-- `create_world` of the source: the fixed twelve-room world. -/
def create_world : World :=
  [ ("Dungeon Cell",
     { description := "You\x27re in a dark stone cell. A rusty bed sits in the corner.",
       exits := [("forward", "Corridor")],
       items := ["Crowbar"],
       obstacle := some { type := "locked", required_item := "Cell Key",
                          message := "The cell door is locked!", direction := some "forward" } }),
    ("Corridor",
     { description := "A dimly lit corridor stretches before you.",
       exits := [("forward", "Guard Room"), ("right", "Storage Room")],
       items := [],
       obstacle := none }),
    ("Guard Room",
     { description := "A guard snores loudly in a chair. There\x27s a door behind him.",
       exits := [("back", "Corridor"), ("forward", "Kitchen")],
       items := [],
       obstacle := some { type := "guard", required_item := "Torch",
                          message := "The guard blocks your path!", direction := some "forward" } }),
    ("Storage Room",
     { description := "Dusty shelves line the walls. Something glints in the corner.",
       exits := [("back", "Corridor"), ("left", "Library")],
       items := ["Rope"],
       obstacle := some { type := "locked", required_item := "Iron Key",
                          message := "The door to the library is locked!", direction := some "left" } }),
    ("Kitchen",
     { description := "A filthy kitchen with moldy food. A torch burns on the wall.",
       exits := [("back", "Guard Room"), ("right", "Armory")],
       items := ["Torch", "Food"],
       obstacle := none }),
    ("Armory",
     { description := "Weapons rust on racks. A strongbox sits in the center.",
       exits := [("back", "Kitchen"), ("north", "Treasury")],
       items := [],
       obstacle := some { type := "chest", required_item := "Crowbar",
                          message := "The strongbox is jammed shut!", direction := none } }),
    ("Library",
     { description := "Ancient books line crumbling shelves. A map peeks from a desk.",
       exits := [("right", "Storage Room"), ("forward", "Study")],
       items := ["Map", "Book"],
       obstacle := none }),
    ("Study",
     { description := "A scholar\x27s study with a desk and chair. A note reveals a secret.",
       exits := [("back", "Library"), ("down", "Secret Passage")],
       items := ["Note"],
       obstacle := none }),
    ("Secret Passage",
     { description := "A narrow hidden passage with strange markings on the wall.",
       exits := [("up", "Study"), ("forward", "Torture Chamber")],
       items := ["Gem"],
       obstacle := none }),
    ("Torture Chamber",
     { description := "A gruesome room with a gaping pit in the floor.",
       exits := [("back", "Secret Passage"), ("across", "Courtyard")],
       items := [],
       obstacle := some { type := "pit", required_item := "Rope",
                          message := "The pit is too wide to jump!", direction := some "across" } }),
    ("Treasury",
     { description := "Glittering treasures line the walls. A suspicious guard stands watch.",
       exits := [("south", "Armory")],
       items := ["Gold Coin"],
       obstacle := some { type := "guard", required_item := "Gem",
                          message := "A guard blocks access to the treasure!", direction := none } }),
    ("Courtyard",
     { description := "Moonlight reveals a massive gate. It\x27s locked.",
       exits := [("forward", "Exit Gate")],
       items := [],
       obstacle := some { type := "gate", required_item := "Cell Key",
                          message := "The gate is securely locked!", direction := some "forward" } }),
    ("Exit Gate",
     { description := "Freedom awaits beyond this point!",
       exits := [],
       items := [],
       obstacle := none }) ]

/-- `handle_locked_chest` of the source: in the Armory, using the Crowbar on
a present chest obstacle pries the strongbox open, drops Cell Key and
Iron Key into the room, clears the obstacle and consumes the Crowbar.
`none` models the Python `return False` (case does not apply). -/
def handle_locked_chest (st : GameState) (item : String) : Option GameState :=
  if st.player.location = "Armory" ∧ item = "Crowbar" then
    match (getRoom st.world "Armory").obstacle with
    | some obs =>
      if obs.type = "chest" then
        some { player := remove_item st.player "Crowbar",
               world := updateRoom st.world "Armory"
                 (fun r => { r with items := r.items ++ ["Cell Key", "Iron Key"],
                                    obstacle := none }) }
      else none
    | none => none
  else none

/-- `handle_special_interactions` of the source.  The Library and Study
branches only print hints; the Treasury branch clears the guard obstacle
when the player carries the Gem. -/
def handle_special_interactions (st : GameState) : GameState :=
  if st.player.location = "Treasury" ∧ has_item st.player "Gem" then
    { st with world := updateRoom st.world "Treasury" (fun r => { r with obstacle := none }) }
  else st

/-- `handle_look` of the source: all output is display-only except the
special-interaction side effects. -/
def handle_look (st : GameState) : GameState :=
  handle_special_interactions st

/-- Which branch a `take` command took (the messages / errors of the source). -/
inductive TakeOutcome where
  | noItems
  | cancelled
  | took (item : String)
  | invalidChoice
  | inventoryFull
deriving DecidableEq, Repr

/-- `handle_take` of the source: with no items, report and stop; selection 0
cancels; an `IndexError` on `items[choice-1]` is reported as an invalid
choice; otherwise `add_item` either appends the item (which is then removed
from the room) or raises `InventoryFullError` before any mutation. -/
def handle_take (st : GameState) (choice : Int) : GameState × TakeOutcome :=
  if (getRoom st.world st.player.location).items = [] then (st, .noItems)
  else if choice = 0 then (st, .cancelled)
  else
    match pyGet (getRoom st.world st.player.location).items (choice - 1) with
    | none => (st, .invalidChoice)
    | some item =>
      match add_item st.player item with
      | some p2 =>
        ({ player := p2,
           world := updateRoom st.world st.player.location
             (fun r => { r with items := r.items.erase item }) }, .took item)
      | none => (st, .inventoryFull)

/-- Which branch a `use` command took. -/
inductive UseOutcome where
  | emptyInventory
  | missingRequired
  | cancelled
  | invalidChoice
  | chestOpened
  | resolved (item : String)
  | nothingHappened (item : String)
deriving DecidableEq, Repr

/-- The tail of `handle_use_item` of the source, after `item_to_use` has
been determined: the Armory strongbox special case first, then generic
obstacle resolution (clear the obstacle when the item matches its required
item, consuming the item exactly when it is Cell Key or Iron Key). -/
def useOn (st : GameState) (item_to_use : String) : GameState × UseOutcome :=
  match handle_locked_chest st item_to_use with
  | some st2 => (st2, .chestOpened)
  | none =>
    match (getRoom st.world st.player.location).obstacle with
    | some obs =>
      if item_to_use = obs.required_item then
        ({ player :=
             if item_to_use = "Cell Key" ∨ item_to_use = "Iron Key" then
               remove_item st.player item_to_use
             else st.player,
           world := updateRoom st.world st.player.location
             (fun r => { r with obstacle := none }) }, .resolved item_to_use)
      else (st, .nothingHappened item_to_use)
    | none => (st, .nothingHappened item_to_use)

/-- `handle_use_item` of the source: empty inventory is reported first; with
a required-item hint the item is used directly when held and reported
missing otherwise; without a hint the player selects from the inventory by
1-based index (0 cancels, `IndexError` reported as invalid choice). -/
def handle_use_item (st : GameState) (required_item : Option String) (choice : Int) :
    GameState × UseOutcome :=
  if st.player.inventory = [] then (st, .emptyInventory)
  else
    match required_item with
    | some r =>
      if has_item st.player r then useOn st r
      else (st, .missingRequired)
    | none =>
      if choice = 0 then (st, .cancelled)
      else
        match pyGet st.player.inventory (choice - 1) with
        | none => (st, .invalidChoice)
        | some item => useOn st item

/-- One directed exit step: `player.location = current_room["exits"][direction]`
of the source (a miss would be a Python `KeyError`, unreachable from
`handle_move`). -/
def moveStep (st : GameState) (room : Room) (direction : String) : GameState :=
  match room.exits.lookup direction with
  | some target => { st with player := { st.player with location := target } }
  | none => st

/-- `handle_movement_execution` of the source: when an obstacle is present
and its direction matches the attempt or is absent, the move is blocked (on
an affirmative confirmation the obstacle's required item is tried via
`handle_use_item`, with the player staying put); otherwise the player steps
through the chosen exit. -/
def handle_movement_execution (st : GameState) (direction : String) (confirm : Bool) :
    GameState :=
  match (getRoom st.world st.player.location).obstacle with
  | some obs =>
    if obs.direction = some direction ∨ obs.direction = none then
      if confirm then (handle_use_item st (some obs.required_item) 0).1 else st
    else moveStep st (getRoom st.world st.player.location) direction
  | none => moveStep st (getRoom st.world st.player.location) direction

/-- `handle_move` of the source: with no exits, report and stop; selection 0
cancels; an out-of-range selection raises `InvalidCommandError` (state
unchanged); otherwise the chosen direction is executed. -/
def handle_move (st : GameState) (choice : Int) (confirm : Bool) : GameState :=
  if ((getRoom st.world st.player.location).exits.map Prod.fst) = [] then st
  else if choice = 0 then st
  else if 0 ≤ choice - 1 ∧
          choice - 1 < (((getRoom st.world st.player.location).exits.map Prod.fst).length : Int) then
    handle_movement_execution st
      (((getRoom st.world st.player.location).exits.map Prod.fst).getD (choice - 1).toNat "")
      confirm
  else st

/-- One command of the main loop, with the interactive inputs (numeric
selection, y/n confirmation) made explicit. -/
inductive Command where
  | look
  | take (choice : Int)
  | move (choice : Int) (confirm : Bool)
  | use (choice : Int)
  | inventory
  | help
deriving DecidableEq, Repr

/-- One dispatch of the main loop of the source.  `inventory` and `help`
only print; domain errors are caught by the loop and leave the state as the
handler left it. -/
def step (st : GameState) : Command → GameState
  | .look => handle_look st
  | .take c => (handle_take st c).1
  | .move c confirm => handle_move st c confirm
  | .use c => (handle_use_item st none c).1
  | .inventory => st
  | .help => st

/-- The main loop of the source: run commands in order; after each command
the victory condition `player.location == "Exit Gate"` is checked and, when
it holds, the loop stops with the victory flag set. -/
def runGame (st : GameState) : List Command → GameState × Bool
  | [] => (st, false)
  | c :: cs =>
    if (step st c).player.location = "Exit Gate" then (step st c, true)
    else runGame (step st c) cs

/-- The state `main` of the source starts from: a fresh player (empty
inventory, in the Dungeon Cell, capacity 4) and the world of `create_world`. -/
def initial_state (name : String) : GameState :=
  { player := { name := name, inventory := [], location := "Dungeon Cell", max_inventory := 4 },
    world := create_world }

/-- The structural part of the world: the room names with each room's
description and exit table (everything except item lists and obstacles). -/
def worldShape (w : World) : List (String × String × List (String × String)) :=
  w.map (fun p => (p.1, p.2.description, p.2.exits))

/-- The obstacle created on the Dungeon Cell by `create_world`. -/
def cellObstacle : Obstacle :=
  { type := "locked", required_item := "Cell Key",
    message := "The cell door is locked!", direction := some "forward" }

/-- The trap configuration of the starting room: the player stands in the
Dungeon Cell, whose locked door (requiring the Cell Key) bars its only
exit, and no Cell Key is within reach — neither in inventory nor among the
cell's items. -/
def stuckState (st : GameState) : Prop :=
  st.player.location = "Dungeon Cell" ∧
  (getRoom st.world "Dungeon Cell").obstacle = some cellObstacle ∧
  (getRoom st.world "Dungeon Cell").exits = [("forward", "Corridor")] ∧
  "Cell Key" ∉ st.player.inventory ∧
  "Cell Key" ∉ (getRoom st.world "Dungeon Cell").items

/-! ### Concrete states used to instantiate the theorems -/

/-- Player in the Corridor (no obstacle) holding a Torch. -/
def corridorState : GameState :=
  { player := { name := "Alex", inventory := ["Torch"], location := "Corridor", max_inventory := 4 },
    world := create_world }

/-- Player in the Armory (chest obstacle) holding the Crowbar. -/
def armoryState : GameState :=
  { player := { name := "Alex", inventory := ["Crowbar"], location := "Armory", max_inventory := 4 },
    world := create_world }

/-- Player in the Torture Chamber (pit obstacle) holding the Rope. -/
def pitState : GameState :=
  { player := { name := "Alex", inventory := ["Rope"], location := "Torture Chamber",
                max_inventory := 4 },
    world := create_world }

/-- Player in the Kitchen (two items) with an empty inventory. -/
def kitchenState : GameState :=
  { player := { name := "Alex", inventory := [], location := "Kitchen", max_inventory := 4 },
    world := create_world }

/-- Player in the Dungeon Cell holding a Torch. -/
def cellTorchState : GameState :=
  { player := { name := "Alex", inventory := ["Torch"], location := "Dungeon Cell",
                max_inventory := 4 },
    world := create_world }

/-- Player in the Treasury holding the Gem. -/
def treasuryState : GameState :=
  { player := { name := "Alex", inventory := ["Gem"], location := "Treasury", max_inventory := 4 },
    world := create_world }

/-- Player in the Guard Room (guard obstacle on "forward") holding the Torch. -/
def guardRoomState : GameState :=
  { player := { name := "Alex", inventory := ["Torch"], location := "Guard Room",
                max_inventory := 4 },
    world := create_world }

/-! ### Helper lemmas about the world dictionary and Python indexing -/

theorem lookup_updateRoom (n m : String) (f : Room → Room) :
    ∀ w : World, (updateRoom w n f).lookup m = if m = n then (w.lookup m).map f else w.lookup m := by
  intro w
  induction w with
  | nil => by_cases hm : m = n <;> simp [updateRoom, List.lookup, hm]
  | cons p t ih =>
    obtain ⟨k, r⟩ := p
    simp only [updateRoom]
    by_cases hk : k = n
    · rw [if_pos hk]
      subst hk
      by_cases hm : m = k
      · subst hm
        simp [List.lookup]
      · have hb : (m == k) = false := beq_eq_false_iff_ne.mpr hm
        simp [List.lookup, hb, ih]
    · rw [if_neg hk]
      by_cases hm : m = k
      · subst hm
        have hmn : m ≠ n := hk
        simp [List.lookup, hmn]
      · have hb : (m == k) = false := beq_eq_false_iff_ne.mpr hm
        simp [List.lookup, hb, ih]

theorem getRoom_cases (w : World) (n : String) :
    w.lookup n = some (getRoom w n) ∨ (w.lookup n = none ∧ getRoom w n = emptyRoom) := by
  cases h : w.lookup n <;> simp [getRoom, h]

theorem getRoom_updateRoom_self (w : World) (n : String) (f : Room → Room) (r : Room)
    (h : w.lookup n = some r) : getRoom (updateRoom w n f) n = f r := by
  simp [getRoom, lookup_updateRoom, h]

theorem getRoom_updateRoom_ne (w : World) (n m : String) (f : Room → Room) (h : m ≠ n) :
    getRoom (updateRoom w n f) m = getRoom w m := by
  simp [getRoom, lookup_updateRoom, h]

theorem pyGet_nil (i : Int) : pyGet [] i = none := by
  simp [pyGet]

theorem pyGet_mem {xs : List String} {i : Int} {a : String} (h : pyGet xs i = some a) :
    a ∈ xs := by
  unfold pyGet at h
  split at h
  · exact List.get?_mem h
  · split at h
    · exact List.get?_mem h
    · exact Option.noConfusion h

/-! ### Frame lemmas: which fields each handler can touch -/

theorem handle_locked_chest_some {st : GameState} {item : String} {st2 : GameState}
    (h : handle_locked_chest st item = some st2) :
    st2.player = remove_item st.player "Crowbar" ∧
    st2.world = updateRoom st.world "Armory"
      (fun r => { r with items := r.items ++ ["Cell Key", "Iron Key"], obstacle := none }) := by
  unfold handle_locked_chest at h
  split at h
  · split at h
    · split at h
      · injection h with h
        subst h
        exact ⟨rfl, rfl⟩
      · exact Option.noConfusion h
    · exact Option.noConfusion h
  · exact Option.noConfusion h

theorem location_useOn (st : GameState) (item : String) :
    (useOn st item).1.player.location = st.player.location := by
  unfold useOn
  split
  · next st2 hc =>
    have := (handle_locked_chest_some hc).1
    simp [this, remove_item]
  · split
    · split
      · split <;> simp [remove_item]
      · rfl
    · rfl

theorem location_handle_use_item (st : GameState) (r : Option String) (c : Int) :
    (handle_use_item st r c).1.player.location = st.player.location := by
  unfold handle_use_item
  split
  · rfl
  · split
    · split
      · exact location_useOn st _
      · rfl
    · split
      · rfl
      · split
        · rfl
        · exact location_useOn st _

theorem location_blocked_move (st : GameState) (direction : String) (confirm : Bool)
    (obs : Obstacle)
    (hobs : (getRoom st.world st.player.location).obstacle = some obs)
    (hdir : obs.direction = some direction ∨ obs.direction = none) :
    (handle_movement_execution st direction confirm).player.location = st.player.location := by
  unfold handle_movement_execution
  split
  · next obs2 hobs2 =>
    rw [hobs] at hobs2
    injection hobs2 with he
    subst he
    rw [if_pos hdir]
    split
    · exact location_handle_use_item st _ 0
    · rfl
  · next hnone =>
    rw [hobs] at hnone
    exact Option.noConfusion hnone

theorem location_unblocked_move (st : GameState) (direction target : String) (confirm : Bool)
    (hno : (getRoom st.world st.player.location).obstacle = none)
    (hex : (getRoom st.world st.player.location).exits.lookup direction = some target) :
    (handle_movement_execution st direction confirm).player.location = target := by
  unfold handle_movement_execution
  split
  · next obs2 hobs2 =>
    rw [hno] at hobs2
    exact Option.noConfusion hobs2
  · simp [moveStep, hex]

theorem handle_locked_chest_none {st : GameState} {item : String}
    (h : ¬(st.player.location = "Armory" ∧ item = "Crowbar" ∧
        ∃ obs, (getRoom st.world "Armory").obstacle = some obs ∧ obs.type = "chest")) :
    handle_locked_chest st item = none := by
  unfold handle_locked_chest
  split
  · next hcond =>
    obtain ⟨hloc, hitem⟩ := hcond
    split
    · next obs hobs =>
      split
      · next htype => exact absurd ⟨hloc, hitem, obs, hobs, htype⟩ h
      · rfl
    · rfl
  · rfl

/-! ### The claims -/

/-- Claim C1: for every room and attempted move direction, the move is
blocked iff the room's obstacle is present and its direction equals the
attempted direction or is absent; a blocked move leaves the player's
location unchanged while an unblocked move sets it to the target of the
chosen exit. -/
theorem C1_movement_blocking (st : GameState) (direction target : String) (confirm : Bool)
    (hexit : (getRoom st.world st.player.location).exits.lookup direction = some target) :
    ((∃ obs, (getRoom st.world st.player.location).obstacle = some obs ∧
        (obs.direction = some direction ∨ obs.direction = none)) →
      (handle_movement_execution st direction confirm).player.location = st.player.location) ∧
    ((¬ ∃ obs, (getRoom st.world st.player.location).obstacle = some obs ∧
        (obs.direction = some direction ∨ obs.direction = none)) →
      (handle_movement_execution st direction confirm).player.location = target) := by
  constructor
  · rintro ⟨obs, hobs, hdir⟩
    exact location_blocked_move st direction confirm obs hobs hdir
  · intro hnb
    unfold handle_movement_execution
    split
    · next obs hobs =>
      have hdir : ¬(obs.direction = some direction ∨ obs.direction = none) :=
        fun hd => hnb ⟨obs, hobs, hd⟩
      rw [if_neg hdir]
      simp [moveStep, hexit]
    · next hnone =>
      simp [moveStep, hexit]

/-- Witness for C1 at a concrete input: the Corridor has no obstacle, so a
forward move takes the player to the Guard Room. -/
theorem C1_movement_blocking_witness :
    ((∃ obs, (getRoom corridorState.world corridorState.player.location).obstacle = some obs ∧
        (obs.direction = some "forward" ∨ obs.direction = none)) →
      (handle_movement_execution corridorState "forward" false).player.location =
        corridorState.player.location) ∧
    ((¬ ∃ obs, (getRoom corridorState.world corridorState.player.location).obstacle = some obs ∧
        (obs.direction = some "forward" ∨ obs.direction = none)) →
      (handle_movement_execution corridorState "forward" false).player.location = "Guard Room") :=
  C1_movement_blocking corridorState "forward" "Guard Room" false (by decide)

/-- Claim C10: a move command that selects a blocked direction leaves the
player's location unchanged even when the confirmation leads to the
obstacle being cleared; passing through the now-cleared exit takes a
subsequent move command. -/
theorem C10_blocked_move_stays (st : GameState) (direction : String) (confirm : Bool)
    (obs : Obstacle)
    (hobs : (getRoom st.world st.player.location).obstacle = some obs)
    (hdir : obs.direction = some direction ∨ obs.direction = none) :
    (handle_movement_execution st direction confirm).player.location = st.player.location ∧
    (∀ target : String,
      (getRoom (handle_movement_execution st direction confirm).world
        (handle_movement_execution st direction confirm).player.location).obstacle = none →
      (getRoom (handle_movement_execution st direction confirm).world
        (handle_movement_execution st direction confirm).player.location).exits.lookup direction
          = some target →
      (handle_movement_execution (handle_movement_execution st direction confirm)
          direction confirm).player.location = target) := by
  refine ⟨location_blocked_move st direction confirm obs hobs hdir, ?_⟩
  intro target hno hex
  exact location_unblocked_move (handle_movement_execution st direction confirm)
    direction target confirm hno hex

/-- Witness for C10 at a concrete input: in the Guard Room holding the
Torch, moving forward is blocked by the guard; confirming uses the Torch
and clears the obstacle, the player stays in the Guard Room, and the next
forward move reaches the Kitchen. -/
theorem C10_blocked_move_stays_witness :
    (handle_movement_execution guardRoomState "forward" true).player.location =
      guardRoomState.player.location ∧
    (∀ target : String,
      (getRoom (handle_movement_execution guardRoomState "forward" true).world
        (handle_movement_execution guardRoomState "forward" true).player.location).obstacle = none →
      (getRoom (handle_movement_execution guardRoomState "forward" true).world
        (handle_movement_execution guardRoomState "forward" true).player.location).exits.lookup
          "forward" = some target →
      (handle_movement_execution (handle_movement_execution guardRoomState "forward" true)
          "forward" true).player.location = target) :=
  C10_blocked_move_stays guardRoomState "forward" true
    { type := "guard", required_item := "Torch", message := "The guard blocks your path!",
      direction := some "forward" }
    (by decide) (Or.inl rfl)

/-- Counterexample to claim C2 as stated: in the Armory with the chest
obstacle present and its required item (the Crowbar) in inventory, using
the Crowbar resolves the obstacle, yet the Crowbar — which is neither
"Cell Key" nor "Iron Key" — is removed from the inventory. -/
theorem C2_crowbar_consumed_counterexample :
    (getRoom armoryState.world armoryState.player.location).obstacle =
      some { type := "chest", required_item := "Crowbar",
             message := "The strongbox is jammed shut!", direction := none } ∧
    "Crowbar" ∈ armoryState.player.inventory ∧
    ¬("Crowbar" = "Cell Key" ∨ "Crowbar" = "Iron Key") ∧
    (getRoom (handle_use_item armoryState none 1).1.world "Armory").obstacle = none ∧
    "Crowbar" ∉ (handle_use_item armoryState none 1).1.player.inventory := by
  decide

/-- Claim C2 (amended: outside the Armory-chest special case): with an
obstacle in the player's current room, using an item resolves the obstacle
iff the item equals its required item; on success the obstacle becomes
absent and the item is removed from inventory exactly when it is "Cell Key"
or "Iron Key"; otherwise nothing happens. -/
theorem C2_generic_resolution (st : GameState) (item : String) (obs : Obstacle)
    (hobs : (getRoom st.world st.player.location).obstacle = some obs)
    (hchest : ¬(st.player.location = "Armory" ∧ item = "Crowbar" ∧ obs.type = "chest")) :
    (item = obs.required_item →
      (getRoom (useOn st item).1.world st.player.location).obstacle = none ∧
      (useOn st item).2 = UseOutcome.resolved item ∧
      ((item = "Cell Key" ∨ item = "Iron Key") →
        (useOn st item).1.player.inventory = st.player.inventory.erase item) ∧
      (¬(item = "Cell Key" ∨ item = "Iron Key") →
        (useOn st item).1.player.inventory = st.player.inventory)) ∧
    (item ≠ obs.required_item → useOn st item = (st, UseOutcome.nothingHappened item)) := by
  have hnone : handle_locked_chest st item = none := by
    apply handle_locked_chest_none
    rintro ⟨hloc, hitem, obs2, hobs2, htype⟩
    rw [← hloc] at hobs2
    rw [hobs] at hobs2
    injection hobs2 with he
    subst he
    exact hchest ⟨hloc, hitem, htype⟩
  constructor
  · intro hmatch
    have heq : useOn st item =
        ({ player := if item = "Cell Key" ∨ item = "Iron Key" then remove_item st.player item
                     else st.player,
           world := updateRoom st.world st.player.location
             (fun r => { r with obstacle := none }) },
         UseOutcome.resolved item) := by
      unfold useOn
      simp only [hnone, hobs, if_pos hmatch]
    refine ⟨?_, ?_, ?_, ?_⟩
    · rw [heq]
      rcases getRoom_cases st.world st.player.location with hc | ⟨hc, he⟩
      · rw [getRoom_updateRoom_self _ _ _ _ hc]
      · rw [he] at hobs
        simp [emptyRoom] at hobs
    · rw [heq]
    · intro hk
      rw [heq]
      simp [if_pos hk, remove_item]
    · intro hk
      rw [heq]
      simp [if_neg hk]
  · intro hne
    unfold useOn
    simp only [hnone, hobs, if_neg hne]

/-- Witness for the amended C2 at a concrete input: in the Torture Chamber
with the pit obstacle, using the Rope (its required item, not a key)
resolves the obstacle and the Rope stays in inventory. -/
theorem C2_generic_resolution_witness :
    ("Rope" = "Rope" →
      (getRoom (useOn pitState "Rope").1.world pitState.player.location).obstacle = none ∧
      (useOn pitState "Rope").2 = UseOutcome.resolved "Rope" ∧
      (("Rope" = "Cell Key" ∨ "Rope" = "Iron Key") →
        (useOn pitState "Rope").1.player.inventory = pitState.player.inventory.erase "Rope") ∧
      (¬("Rope" = "Cell Key" ∨ "Rope" = "Iron Key") →
        (useOn pitState "Rope").1.player.inventory = pitState.player.inventory)) ∧
    ("Rope" ≠ "Rope" → useOn pitState "Rope" = (pitState, UseOutcome.nothingHappened "Rope")) :=
  C2_generic_resolution pitState "Rope"
    { type := "pit", required_item := "Rope", message := "The pit is too wide to jump!",
      direction := some "across" }
    (by decide) (by decide)

/-- Claim C3: in the Armory with the chest obstacle present, using the
Crowbar clears the obstacle, appends "Cell Key" and "Iron Key" to the
Armory's item list, and removes the Crowbar from the inventory; the case is
taken before generic obstacle resolution (outcome `chestOpened`). -/
theorem C3_armory_chest (st : GameState) (obs : Obstacle) (c : Int)
    (hloc : st.player.location = "Armory")
    (hobs : (getRoom st.world "Armory").obstacle = some obs)
    (htype : obs.type = "chest")
    (hinv : "Crowbar" ∈ st.player.inventory) :
    (getRoom (handle_use_item st (some "Crowbar") c).1.world "Armory").obstacle = none ∧
    (getRoom (handle_use_item st (some "Crowbar") c).1.world "Armory").items =
      (getRoom st.world "Armory").items ++ ["Cell Key", "Iron Key"] ∧
    (handle_use_item st (some "Crowbar") c).1.player.inventory =
      st.player.inventory.erase "Crowbar" ∧
    (handle_use_item st (some "Crowbar") c).2 = UseOutcome.chestOpened := by
  have hne : st.player.inventory ≠ [] := by
    intro he
    rw [he] at hinv
    cases hinv
  have hchest : handle_locked_chest st "Crowbar" =
      some { player := remove_item st.player "Crowbar",
             world := updateRoom st.world "Armory"
               (fun r => { r with items := r.items ++ ["Cell Key", "Iron Key"],
                                  obstacle := none }) } := by
    unfold handle_locked_chest
    rw [if_pos ⟨hloc, rfl⟩]
    simp only [hobs, if_pos htype]
  have heq : handle_use_item st (some "Crowbar") c =
      ({ player := remove_item st.player "Crowbar",
         world := updateRoom st.world "Armory"
           (fun r => { r with items := r.items ++ ["Cell Key", "Iron Key"],
                              obstacle := none }) },
       UseOutcome.chestOpened) := by
    unfold handle_use_item
    rw [if_neg hne]
    show (if has_item st.player "Crowbar" then useOn st "Crowbar"
          else (st, UseOutcome.missingRequired)) = _
    rw [if_pos (show has_item st.player "Crowbar" from hinv)]
    unfold useOn
    rw [hchest]
  rcases getRoom_cases st.world "Armory" with hc | ⟨hc, he⟩
  · rw [heq]
    rw [getRoom_updateRoom_self _ _ _ _ hc]
    exact ⟨rfl, rfl, rfl, rfl⟩
  · rw [he] at hobs
    simp [emptyRoom] at hobs

/-- Witness for C3 at a concrete input: the Armory state with the Crowbar. -/
theorem C3_armory_chest_witness :
    (getRoom (handle_use_item armoryState (some "Crowbar") 0).1.world "Armory").obstacle = none ∧
    (getRoom (handle_use_item armoryState (some "Crowbar") 0).1.world "Armory").items =
      (getRoom armoryState.world "Armory").items ++ ["Cell Key", "Iron Key"] ∧
    (handle_use_item armoryState (some "Crowbar") 0).1.player.inventory =
      armoryState.player.inventory.erase "Crowbar" ∧
    (handle_use_item armoryState (some "Crowbar") 0).2 = UseOutcome.chestOpened :=
  C3_armory_chest armoryState
    { type := "chest", required_item := "Crowbar", message := "The strongbox is jammed shut!",
      direction := none }
    0 (by decide) (by decide) (by decide) (by decide)

/-- Claim C6: using an item that does not match the current room's
obstacle's required item, or with no obstacle present, while the chest
special case does not apply, changes nothing: the state (in particular the
obstacle field and the inventory) is returned unchanged and the item is not
consumed. -/
theorem C6_wrong_item_no_effect (st : GameState) (item : String)
    (hchest : ¬(st.player.location = "Armory" ∧ item = "Crowbar" ∧
        ∃ obs, (getRoom st.world "Armory").obstacle = some obs ∧ obs.type = "chest"))
    (hmiss : (getRoom st.world st.player.location).obstacle = none ∨
      ∃ obs, (getRoom st.world st.player.location).obstacle = some obs ∧
        item ≠ obs.required_item) :
    useOn st item = (st, UseOutcome.nothingHappened item) := by
  have hnone : handle_locked_chest st item = none := handle_locked_chest_none hchest
  unfold useOn
  rcases hmiss with hno | ⟨obs, hobs, hne⟩
  · simp only [hnone, hno]
  · simp only [hnone, hobs, if_neg hne]

/-- Witness for C6 at a concrete input: using the Torch in the Corridor
(which has no obstacle) changes nothing. -/
theorem C6_wrong_item_no_effect_witness :
    useOn corridorState "Torch" = (corridorState, UseOutcome.nothingHappened "Torch") :=
  C6_wrong_item_no_effect corridorState "Torch"
    (by rintro ⟨h, -, -⟩; exact absurd h (by decide))
    (Or.inl (by decide))

/-- Claim C4: taking a room item with inventory strictly below capacity
puts the item in the inventory and removes it from the room's item list;
with the inventory at (or beyond) capacity the take fails with
InventoryFull and both the inventory and the room are unchanged. -/
theorem C4_take_item (st : GameState) (choice : Int) (item : String)
    (h0 : choice ≠ 0)
    (hsel : pyGet (getRoom st.world st.player.location).items (choice - 1) = some item)
    (hnd : (getRoom st.world st.player.location).items.Nodup) :
    (st.player.inventory.length < st.player.max_inventory →
      item ∈ (handle_take st choice).1.player.inventory ∧
      item ∉ (getRoom (handle_take st choice).1.world st.player.location).items ∧
      (handle_take st choice).2 = TakeOutcome.took item) ∧
    (¬st.player.inventory.length < st.player.max_inventory →
      (handle_take st choice).1 = st ∧ (handle_take st choice).2 = TakeOutcome.inventoryFull) := by
  have hne : (getRoom st.world st.player.location).items ≠ [] := by
    intro he
    rw [he, pyGet_nil] at hsel
    exact Option.noConfusion hsel
  constructor
  · intro hlt
    have heq : handle_take st choice =
        ({ player := { st.player with inventory := st.player.inventory ++ [item] },
           world := updateRoom st.world st.player.location
             (fun r => { r with items := r.items.erase item }) },
         TakeOutcome.took item) := by
      unfold handle_take
      rw [if_neg hne, if_neg h0]
      simp only [hsel]
      unfold add_item
      rw [if_pos hlt]
    rw [heq]
    refine ⟨by simp, ?_, rfl⟩
    rcases getRoom_cases st.world st.player.location with hc | ⟨hc, he⟩
    · rw [getRoom_updateRoom_self _ _ _ _ hc]
      exact hnd.not_mem_erase
    · rw [he] at hne
      exact absurd rfl hne
  · intro hge
    unfold handle_take
    rw [if_neg hne, if_neg h0]
    simp only [hsel]
    unfold add_item
    rw [if_neg hge]
    exact ⟨rfl, rfl⟩

/-- Witness for C4 at a concrete input: taking the Crowbar (selection 1)
from the Dungeon Cell with an empty inventory. -/
theorem C4_take_item_witness :
    ((initial_state "Alex").player.inventory.length <
        (initial_state "Alex").player.max_inventory →
      "Crowbar" ∈ (handle_take (initial_state "Alex") 1).1.player.inventory ∧
      "Crowbar" ∉ (getRoom (handle_take (initial_state "Alex") 1).1.world
        (initial_state "Alex").player.location).items ∧
      (handle_take (initial_state "Alex") 1).2 = TakeOutcome.took "Crowbar") ∧
    (¬(initial_state "Alex").player.inventory.length <
        (initial_state "Alex").player.max_inventory →
      (handle_take (initial_state "Alex") 1).1 = initial_state "Alex" ∧
      (handle_take (initial_state "Alex") 1).2 = TakeOutcome.inventoryFull) :=
  C4_take_item (initial_state "Alex") 1 "Crowbar" (by decide) (by decide) (by decide)

/-- Counterexample to claim C7 as stated: in the Kitchen (items Torch and
Food), the numeric selection -1 is neither 0 nor a valid 1-based index,
yet — through Python's negative-index convention, `items[-1 - 1]` being the
second item from the end — the take succeeds and the inventory changes. -/
theorem C7_negative_selection_counterexample :
    (-1 : Int) ≠ 0 ∧
    ¬(1 ≤ (-1 : Int) ∧
      (-1 : Int) ≤ ((getRoom kitchenState.world kitchenState.player.location).items.length : Int)) ∧
    (handle_take kitchenState (-1)).2 = TakeOutcome.took "Torch" ∧
    (handle_take kitchenState (-1)).1.player.inventory ≠ kitchenState.player.inventory := by
  decide

/-- Claim C7 (amended: a numeric selection that is neither 0 nor resolves
to a listed element under Python's indexing — i.e. `choice - 1` is out of
range even allowing the negative-index convention): a take whose selection
misses the room's (nonempty, listed) items reports an invalid choice and
leaves the state unchanged, and likewise — independently — a free-standing
use whose selection misses the (nonempty, listed) inventory. -/
theorem C7_invalid_selection (st : GameState) (choice : Int)
    (h0 : choice ≠ 0) :
    (pyGet (getRoom st.world st.player.location).items (choice - 1) = none →
      (getRoom st.world st.player.location).items ≠ [] →
      handle_take st choice = (st, TakeOutcome.invalidChoice)) ∧
    (pyGet st.player.inventory (choice - 1) = none →
      st.player.inventory ≠ [] →
      handle_use_item st none choice = (st, UseOutcome.invalidChoice)) := by
  constructor
  · intro hti htne
    unfold handle_take
    rw [if_neg htne, if_neg h0]
    simp only [hti]
  · intro hui hune
    unfold handle_use_item
    rw [if_neg hune]
    simp only [hui, if_neg h0]

/-- Witness for the amended C7 at a concrete input: selection 5 in the
Dungeon Cell (one room item, one inventory item) is out of range for the
take listing and for the use listing, each branch under its own
conditions. -/
theorem C7_invalid_selection_witness :
    (pyGet (getRoom cellTorchState.world cellTorchState.player.location).items (5 - 1) = none →
      (getRoom cellTorchState.world cellTorchState.player.location).items ≠ [] →
      handle_take cellTorchState 5 = (cellTorchState, TakeOutcome.invalidChoice)) ∧
    (pyGet cellTorchState.player.inventory (5 - 1) = none →
      cellTorchState.player.inventory ≠ [] →
      handle_use_item cellTorchState none 5 = (cellTorchState, UseOutcome.invalidChoice)) :=
  C7_invalid_selection cellTorchState 5 (by decide)

/-- Claim C8: whenever the room is observed with the player in the Treasury
carrying the Gem, the Treasury's guard obstacle is set to absent and the
player (in particular the inventory) is untouched. -/
theorem C8_treasury_gem (st : GameState)
    (hloc : st.player.location = "Treasury")
    (hgem : "Gem" ∈ st.player.inventory) :
    (getRoom (handle_look st).world "Treasury").obstacle = none ∧
    (handle_look st).player = st.player := by
  unfold handle_look handle_special_interactions
  rw [if_pos ⟨hloc, hgem⟩]
  constructor
  · simp only [getRoom, lookup_updateRoom, if_pos rfl]
    cases hc : st.world.lookup "Treasury" <;> simp [emptyRoom]
  · rfl

/-- Witness for C8 at a concrete input: the Treasury state with the Gem. -/
theorem C8_treasury_gem_witness :
    (getRoom (handle_look treasuryState).world "Treasury").obstacle = none ∧
    (handle_look treasuryState).player = treasuryState.player :=
  C8_treasury_gem treasuryState (by decide) (by decide)

theorem worldShape_updateRoom (w : World) (n : String) (f : Room → Room)
    (hf : ∀ r, (f r).description = r.description ∧ (f r).exits = r.exits) :
    worldShape (updateRoom w n f) = worldShape w := by
  induction w with
  | nil => rfl
  | cons p t ih =>
    obtain ⟨k, r⟩ := p
    simp only [updateRoom, worldShape, List.map_cons] at *
    by_cases hk : k = n
    · rw [if_pos hk]
      simp [(hf r).1, (hf r).2, ih]
    · rw [if_neg hk]
      simp [ih]

theorem obstacle_none_updateRoom (w : World) (n m : String) (f : Room → Room)
    (hf : ∀ r, r.obstacle = none → (f r).obstacle = none)
    (h : (getRoom w m).obstacle = none) :
    (getRoom (updateRoom w n f) m).obstacle = none := by
  by_cases hm : m = n
  · subst hm
    rcases getRoom_cases w m with hc | ⟨hc, he⟩
    · rw [getRoom_updateRoom_self _ _ _ _ hc]
      exact hf _ h
    · simp [getRoom, lookup_updateRoom, hc, emptyRoom]
  · rw [getRoom_updateRoom_ne _ _ _ _ hm]
    exact h

theorem preserves_useOn (st : GameState) (item : String) :
    worldShape (useOn st item).1.world = worldShape st.world ∧
    ∀ m, (getRoom st.world m).obstacle = none →
      (getRoom (useOn st item).1.world m).obstacle = none := by
  unfold useOn
  split
  · next st2 hc =>
    have hw := (handle_locked_chest_some hc).2
    constructor
    · rw [hw]
      exact worldShape_updateRoom _ _ _ (fun r => ⟨rfl, rfl⟩)
    · intro m hm
      rw [hw]
      exact obstacle_none_updateRoom _ _ _ _ (fun r _ => rfl) hm
  · split
    · split
      · constructor
        · exact worldShape_updateRoom _ _ _ (fun r => ⟨rfl, rfl⟩)
        · intro m hm
          exact obstacle_none_updateRoom _ _ _ _ (fun r _ => rfl) hm
      · exact ⟨rfl, fun m hm => hm⟩
    · exact ⟨rfl, fun m hm => hm⟩

theorem preserves_handle_use_item (st : GameState) (r : Option String) (c : Int) :
    worldShape (handle_use_item st r c).1.world = worldShape st.world ∧
    ∀ m, (getRoom st.world m).obstacle = none →
      (getRoom (handle_use_item st r c).1.world m).obstacle = none := by
  unfold handle_use_item
  split
  · exact ⟨rfl, fun m hm => hm⟩
  · split
    · split
      · exact preserves_useOn st _
      · exact ⟨rfl, fun m hm => hm⟩
    · split
      · exact ⟨rfl, fun m hm => hm⟩
      · split
        · exact ⟨rfl, fun m hm => hm⟩
        · exact preserves_useOn st _

theorem preserves_handle_take (st : GameState) (c : Int) :
    worldShape (handle_take st c).1.world = worldShape st.world ∧
    ∀ m, (getRoom st.world m).obstacle = none →
      (getRoom (handle_take st c).1.world m).obstacle = none := by
  unfold handle_take
  split
  · exact ⟨rfl, fun m hm => hm⟩
  · split
    · exact ⟨rfl, fun m hm => hm⟩
    · split
      · exact ⟨rfl, fun m hm => hm⟩
      · split
        · constructor
          · exact worldShape_updateRoom _ _ _ (fun r => ⟨rfl, rfl⟩)
          · intro m hm
            exact obstacle_none_updateRoom _ _ _ _ (fun r hr => hr) hm
        · exact ⟨rfl, fun m hm => hm⟩

theorem world_moveStep (st : GameState) (room : Room) (d : String) :
    (moveStep st room d).world = st.world := by
  unfold moveStep
  split <;> rfl

theorem preserves_handle_movement_execution (st : GameState) (d : String) (confirm : Bool) :
    worldShape (handle_movement_execution st d confirm).world = worldShape st.world ∧
    ∀ m, (getRoom st.world m).obstacle = none →
      (getRoom (handle_movement_execution st d confirm).world m).obstacle = none := by
  unfold handle_movement_execution
  split
  · split
    · split
      · exact preserves_handle_use_item st _ 0
      · exact ⟨rfl, fun m hm => hm⟩
    · rw [world_moveStep]
      exact ⟨rfl, fun m hm => hm⟩
  · rw [world_moveStep]
    exact ⟨rfl, fun m hm => hm⟩

theorem preserves_handle_move (st : GameState) (c : Int) (confirm : Bool) :
    worldShape (handle_move st c confirm).world = worldShape st.world ∧
    ∀ m, (getRoom st.world m).obstacle = none →
      (getRoom (handle_move st c confirm).world m).obstacle = none := by
  unfold handle_move
  split
  · exact ⟨rfl, fun m hm => hm⟩
  · split
    · exact ⟨rfl, fun m hm => hm⟩
    · split
      · exact preserves_handle_movement_execution st _ confirm
      · exact ⟨rfl, fun m hm => hm⟩

theorem preserves_handle_look (st : GameState) :
    worldShape (handle_look st).world = worldShape st.world ∧
    ∀ m, (getRoom st.world m).obstacle = none →
      (getRoom (handle_look st).world m).obstacle = none := by
  unfold handle_look handle_special_interactions
  split
  · constructor
    · exact worldShape_updateRoom _ _ _ (fun r => ⟨rfl, rfl⟩)
    · intro m hm
      exact obstacle_none_updateRoom _ _ _ _ (fun r _ => rfl) hm
  · exact ⟨rfl, fun m hm => hm⟩

/-- Claim C9: every game operation preserves the world's structure — the
room names, descriptions and exit tables are unchanged (only item lists and
obstacle fields mutate) — and an obstacle that is absent is never set back
to present. -/
theorem C9_world_structure (st : GameState) (c : Command) :
    worldShape (step st c).world = worldShape st.world ∧
    ∀ name, (getRoom st.world name).obstacle = none →
      (getRoom (step st c).world name).obstacle = none := by
  cases c with
  | look => exact preserves_handle_look st
  | take ch => exact preserves_handle_take st ch
  | move ch cf => exact preserves_handle_move st ch cf
  | use ch => exact preserves_handle_use_item st none ch
  | inventory => exact ⟨rfl, fun m hm => hm⟩
  | help => exact ⟨rfl, fun m hm => hm⟩

/-- Witness for C9 at a concrete input: opening the Armory chest (a command
that mutates both an item list and an obstacle) keeps the world's shape and
reintroduces no obstacle. -/
theorem C9_world_structure_witness :
    worldShape (step armoryState (Command.use 1)).world = worldShape armoryState.world ∧
    ∀ name, (getRoom armoryState.world name).obstacle = none →
      (getRoom (step armoryState (Command.use 1)).world name).obstacle = none :=
  C9_world_structure armoryState (Command.use 1)

theorem use_missing_item (st : GameState) (r : String) (c : Int)
    (hmiss : r ∉ st.player.inventory) :
    (handle_use_item st (some r) c).1 = st := by
  unfold handle_use_item
  split
  · rfl
  · show (if has_item st.player r then useOn st r else (st, UseOutcome.missingRequired)).1 = st
    rw [if_neg (show ¬has_item st.player r from hmiss)]

theorem stuck_look (st : GameState) (h : stuckState st) : handle_look st = st := by
  obtain ⟨hloc, -, -, -, -⟩ := h
  unfold handle_look handle_special_interactions
  rw [if_neg]
  rintro ⟨hA, -⟩
  rw [hloc] at hA
  exact absurd hA (by decide)

theorem stuck_take (st : GameState) (c : Int) (h : stuckState st) :
    stuckState (handle_take st c).1 := by
  obtain ⟨hloc, hobs, hex, hinv, hitems⟩ := h
  unfold handle_take
  split
  · exact ⟨hloc, hobs, hex, hinv, hitems⟩
  · split
    · exact ⟨hloc, hobs, hex, hinv, hitems⟩
    · split
      · exact ⟨hloc, hobs, hex, hinv, hitems⟩
      · next item hsel =>
        have hmem : item ∈ (getRoom st.world "Dungeon Cell").items := by
          rw [← hloc]
          exact pyGet_mem hsel
        have hne : item ≠ "Cell Key" := fun he => hitems (he ▸ hmem)
        split
        · next p2 hadd =>
          unfold add_item at hadd
          split at hadd
          · injection hadd with hadd
            subst hadd
            have hcell : st.world.lookup "Dungeon Cell" =
                some (getRoom st.world "Dungeon Cell") := by
              rcases getRoom_cases st.world "Dungeon Cell" with hc | ⟨hc, he⟩
              · exact hc
              · rw [he] at hobs
                simp [emptyRoom] at hobs
            have hup := getRoom_updateRoom_self st.world "Dungeon Cell"
              (fun r => { r with items := r.items.erase item }) _ hcell
            rw [hloc]
            refine ⟨rfl, ?_, ?_, ?_, ?_⟩
            · rw [hup]
              exact hobs
            · rw [hup]
              exact hex
            · intro hm
              rcases List.mem_append.mp hm with hm | hm
              · exact hinv hm
              · rcases List.mem_singleton.mp hm with he
                exact hne he.symm
            · rw [hup]
              intro hm
              exact hitems (List.mem_of_mem_erase hm)
          · exact Option.noConfusion hadd
        · exact ⟨hloc, hobs, hex, hinv, hitems⟩

theorem stuck_movement_execution (st : GameState) (cf : Bool) (h : stuckState st) :
    handle_movement_execution st "forward" cf = st := by
  obtain ⟨hloc, hobs, hex, hinv, hitems⟩ := h
  unfold handle_movement_execution
  rw [hloc, hobs]
  show (if cellObstacle.direction = some "forward" ∨ cellObstacle.direction = none then
          if cf then (handle_use_item st (some cellObstacle.required_item) 0).1 else st
        else moveStep st (getRoom st.world "Dungeon Cell") "forward") = st
  rw [if_pos (show cellObstacle.direction = some "forward" ∨ cellObstacle.direction = none from
    Or.inl rfl)]
  cases cf with
  | true => exact use_missing_item st "Cell Key" 0 hinv
  | false => rfl

theorem stuck_move (st : GameState) (c : Int) (cf : Bool) (h : stuckState st) :
    handle_move st c cf = st := by
  have h0 := h
  obtain ⟨hloc, hobs, hex, hinv, hitems⟩ := h
  unfold handle_move
  rw [hloc, hex]
  simp only [List.map_cons, List.map_nil, List.length_cons, List.length_nil]
  rw [if_neg (by simp : ¬(["forward"] : List String) = [])]
  split
  · rfl
  · split
    · next hrange =>
      have hc1 : c = 1 := by omega
      subst hc1
      show handle_movement_execution st (["forward"].getD 0 "") cf = st
      show handle_movement_execution st "forward" cf = st
      exact stuck_movement_execution st cf h0
    · rfl

theorem stuck_use (st : GameState) (c : Int) (h : stuckState st) :
    (handle_use_item st none c).1 = st := by
  obtain ⟨hloc, hobs, hex, hinv, hitems⟩ := h
  unfold handle_use_item
  split
  · rfl
  · show (if c = 0 then (st, UseOutcome.cancelled)
          else
            match pyGet st.player.inventory (c - 1) with
            | none => (st, UseOutcome.invalidChoice)
            | some item => useOn st item).1 = st
    split
    · rfl
    · split
      · rfl
      · next item hsel =>
        have hmem := pyGet_mem hsel
        have hne : item ≠ "Cell Key" := fun he => hinv (he ▸ hmem)
        have hchest : handle_locked_chest st item = none := by
          apply handle_locked_chest_none
          rintro ⟨hA, -, -⟩
          rw [hloc] at hA
          exact absurd hA (by decide)
        unfold useOn
        rw [hloc]
        simp only [hchest, hobs]
        rw [if_neg (by simpa [cellObstacle] using hne)]

theorem stuck_step (st : GameState) (c : Command) (h : stuckState st) :
    stuckState (step st c) := by
  cases c with
  | look =>
    show stuckState (handle_look st)
    rw [stuck_look st h]
    exact h
  | take ch => exact stuck_take st ch h
  | move ch cf =>
    show stuckState (handle_move st ch cf)
    rw [stuck_move st ch cf h]
    exact h
  | use ch =>
    show stuckState (handle_use_item st none ch).1
    rw [stuck_use st ch h]
    exact h
  | inventory => exact h
  | help => exact h

theorem runGame_stuck (cmds : List Command) : ∀ st : GameState, stuckState st →
    (runGame st cmds).1.player.location = "Dungeon Cell" ∧ (runGame st cmds).2 = false := by
  induction cmds with
  | nil =>
    intro st h
    exact ⟨h.1, rfl⟩
  | cons c cs ih =>
    intro st h
    have h2 := stuck_step st c h
    unfold runGame
    rw [if_neg]
    · exact ih _ h2
    · intro he
      rw [h2.1] at he
      exact absurd he (by decide)

theorem stuck_initial (name : String) : stuckState (initial_state name) :=
  ⟨rfl, rfl, rfl, List.not_mem_nil _,
    (show "Cell Key" ∉ ["Crowbar"] by decide)⟩

/-- Claim C5 is refuted by the code: from the initial state no sequence of
commands ever moves the player out of the Dungeon Cell — its only exit is
barred by an obstacle requiring the Cell Key, which is obtainable only
beyond it — so the location never equals "Exit Gate" and the victory
condition never triggers. -/
theorem C5_no_escape_possible (name : String) (cmds : List Command) :
    (runGame (initial_state name) cmds).1.player.location = "Dungeon Cell" ∧
    (runGame (initial_state name) cmds).2 = false :=
  runGame_stuck cmds (initial_state name) (stuck_initial name)

end DungeonEscape
